import Mathlib

/-!
Verification of the fetch-and-aggregate orchestration engine of the
Tokopedia scraper (src/index.js and src/unnamed/part_000) against its
natural-language specification.

The source is an Express/axios service.  Its core pieces are embedded
shallowly below:

* `ConcurrencyLimit` (src/index.js lines 287-309) — a bounded-concurrency
  gate.  `run(fn)` checks `running >= limit`, and if so pushes a resolver
  on `queue` and awaits it; then it increments `running`, runs `fn` inside
  `try`/`finally`, and in the `finally` decrements `running` and resolves
  the head of `queue` (if any).  Crucially, resolving a waiter only
  schedules its continuation as a microtask: the waiter increments
  `running` later, without re-checking the limit, and other code (another
  task's `finally`, or a fresh batch of `run` calls from a different
  request's continuation) can run in between.  The embedding is an event
  step machine over that interleaving structure: `submit` is the
  synchronous prefix of `run` (admit or enqueue), `finish` is the
  `finally` block (decrement, wake head of queue into `pending`), and
  `resume` is the woken waiter's continuation (unconditional increment).
  The ghost fields `resumed` and `arrivals` record the order in which
  waiters resume and arrive, for the FIFO property.

* `retryRequest` (src/index.js lines 314-327, src/unnamed/part_000 lines
  12-30) — `if (!url) throw`, then a `for (let i = 0; i < retries; i++)`
  loop: each iteration calls `axios.get` (modelled by an oracle indexed
  by the attempt number); on success it returns the response; on failure
  it rethrows when `i === retries - 1` and otherwise sleeps a constant
  `delayMs` and continues.  Falling off the loop (retries <= 0) returns
  `undefined`, modelled as `Except.ok none`.  The embedding records the
  attempt count and the list of sleeps performed.

* the cache and the two `/api/tokopedia-shop` handlers (src/index.js
  lines 404-421 with the cache read, src/unnamed/part_000 lines 155-178
  with the 4900 ms overall race), and the two fan-out variants
  (src/index.js lines 380-395: `Promise.all` over `limit.run` tasks with
  a per-task `catch`; src/unnamed/part_000 lines 118-141: per-item
  `Promise.race` against a rejecting 4000 ms timeout, gathered with
  `Promise.allSettled` and filtered to the fulfilled entries).
-/

/-! ## Scheduler: ConcurrencyLimit (src/index.js 287-309) -/

/-- One event of the scheduler's interleaving semantics.  `submit t` is a
call to `run` for task `t` (its synchronous prefix), `finish` is the
`finally` block of some running task, `resume` is the continuation of the
earliest woken waiter (microtasks resume in FIFO order). -/
inductive SchedEvent
  | submit (t : Nat)
  | finish
  | resume
  deriving DecidableEq, Repr

/-- State of `ConcurrencyLimit`: `running` and `queue` are the fields of
the JS class; `pending` holds waiters whose resolver has been called but
whose continuation has not yet run; `resumed` and `arrivals` are ghost
logs of waiter resumption order and waiter arrival order. -/
structure SchedState where
  running : Nat
  queue : List Nat
  pending : List Nat
  resumed : List Nat
  arrivals : List Nat
  deriving DecidableEq, Repr

def initSched : SchedState := ⟨0, [], [], [], []⟩

/-- One step of the gate.  `submit`: the JS `if (this.running >= this.limit)`
check — enqueue when full, otherwise `this.running++` at once.  `finish`:
`this.running--` then `this.queue.shift()` and resolve it (the waiter
becomes pending).  `resume`: the woken waiter's `this.running++`, with no
re-check of the limit — exactly as the code after the `await`. -/
def schedStep (limit : Nat) (s : SchedState) : SchedEvent → SchedState
  | SchedEvent.submit t =>
    if limit ≤ s.running then
      { s with queue := s.queue ++ [t], arrivals := s.arrivals ++ [t] }
    else
      { s with running := s.running + 1 }
  | SchedEvent.finish =>
    match s.queue with
    | [] => { s with running := s.running - 1 }
    | w :: q2 =>
      { s with running := s.running - 1, queue := q2, pending := s.pending ++ [w] }
  | SchedEvent.resume =>
    match s.pending with
    | [] => s
    | w :: p2 =>
      { s with running := s.running + 1, pending := p2, resumed := s.resumed ++ [w] }

def runSched (limit : Nat) (es : List SchedEvent) : SchedState :=
  es.foldl (schedStep limit) initSched

/-- A realizable interleaving with limit 5: tasks 1-5 admitted, task 6
queued, task 1 finishes (waking 6), a fresh task 7 is submitted from
another request's continuation before 6's microtask runs, then 6 resumes.
In JS this is the microtask order [finally-of-1, listing-continuation
calling run(7), continuation-of-6]. -/
def c1BugTrace : List SchedEvent :=
  [SchedEvent.submit 1, SchedEvent.submit 2, SchedEvent.submit 3, SchedEvent.submit 4,
   SchedEvent.submit 5, SchedEvent.submit 6, SchedEvent.finish, SchedEvent.submit 7,
   SchedEvent.resume]

/-- Waiters flow `queue → pending → resumed` with appends on the right and
removals at the head, so the three logs concatenate to the arrival log. -/
def WaiterInv (s : SchedState) : Prop :=
  s.resumed ++ (s.pending ++ s.queue) = s.arrivals

/-! ## Fetcher: retryRequest (src/index.js 314-327, part_000 12-30) -/

/-- An HTTP response, reduced to the `response.data` the callers use. -/
structure Response where
  data : String
  deriving DecidableEq, Repr

/-- The fetcher's failure kinds: the synchronous `throw new Error('Invalid
URL: URL is undefined')` for a falsy url, or the last attempt's error
rethrown after retries are exhausted. -/
inductive FetchErr
  | invalidInput
  | netFail (msg : String)
  deriving DecidableEq, Repr

deriving instance DecidableEq for Except

/-- What one call to `retryRequest` did: how many attempts were issued,
which sleeps were performed between attempts, and the outcome (`ok none`
is the JS `undefined` from falling off the loop). -/
structure FetchTrace where
  attempts : Nat
  sleeps : List Nat
  outcome : Except FetchErr (Option Response)
  deriving DecidableEq, Repr

/-- The retry loop: at attempt `i` with `fuel` iterations left, consult
the oracle; success returns, failure on the last iteration (`fuel = 1`,
the JS `i === retries - 1`) rethrows the attempt's error, and otherwise
the loop sleeps the constant `delayMs` and continues. -/
def retryAux (oracle : Nat → Except String Response) (delayMs : Nat) :
    Nat → Nat → FetchTrace
  | _, 0 => ⟨0, [], Except.ok none⟩
  | i, 1 =>
    match oracle i with
    | Except.ok r => ⟨1, [], Except.ok (some r)⟩
    | Except.error e => ⟨1, [], Except.error (FetchErr.netFail e)⟩
  | i, fuel + 2 =>
    match oracle i with
    | Except.ok r => ⟨1, [], Except.ok (some r)⟩
    | Except.error _ =>
      ⟨(retryAux oracle delayMs (i + 1) (fuel + 1)).attempts + 1,
       delayMs :: (retryAux oracle delayMs (i + 1) (fuel + 1)).sleeps,
       (retryAux oracle delayMs (i + 1) (fuel + 1)).outcome⟩

/-- `retryRequest(url, retries, delayMs)`: the only input validation is the
falsy check `if (!url) throw`; then the `for` loop runs `max retries 0`
iterations. -/
def retryRequest (url : String) (retries : Int) (delayMs : Nat)
    (oracle : Nat → Except String Response) : FetchTrace :=
  if url = "" then ⟨0, [], Except.error FetchErr.invalidInput⟩
  else retryAux oracle delayMs 0 retries.toNat

/-- A network in which every attempt fails. -/
def failOracle : Nat → Except String Response := fun _ => Except.error "network down"

/-- Modelled from the spec: a "well-formed absolute URL" in the sense of
section 4.1 — it carries an explicit http or https scheme.  This is the
spec's notion, stated for comparison with the code's falsy-only check. -/
def specAbsoluteUrl (url : String) : Bool :=
  match url.data with
  | 'h' :: 't' :: 't' :: 'p' :: ':' :: '/' :: '/' :: _ => true
  | 'h' :: 't' :: 't' :: 'p' :: 's' :: ':' :: '/' :: '/' :: _ => true
  | _ => false

/-! ## Cache and the shop endpoint with a cache read (src/index.js 282-284, 404-421) -/

/-- One cache entry: `{ data, timestamp: Date.now() }`. -/
structure CacheEntry (α : Type) where
  data : α
  timestamp : Nat
  deriving DecidableEq, Repr

/-- `const CACHE_DURATION = 5 * 60 * 1000`. -/
def CACHE_DURATION : Nat := 5 * 60 * 1000

/-- `cache.set(k, e)`: a JS `Map.set` always overwrites; reads below take
the newest binding. -/
def cacheSet {α : Type} (m : List (String × CacheEntry α)) (k : String)
    (e : CacheEntry α) : List (String × CacheEntry α) :=
  (k, e) :: m

/-- `cache.get(k)`: the newest binding for `k`, if any. -/
def cacheGet {α : Type} : List (String × CacheEntry α) → String → Option (CacheEntry α)
  | [], _ => none
  | (k2, e) :: rest, k => if k = k2 then some e else cacheGet rest k

/-- The endpoint's freshness read: `cache.get(k)` followed by
`Date.now() - cachedData.timestamp < CACHE_DURATION`; a stale or absent
entry is a miss. -/
def cacheFresh {α : Type} (m : List (String × CacheEntry α)) (k : String)
    (now : Nat) : Option α :=
  match cacheGet m k with
  | none => none
  | some e => if now - e.timestamp < CACHE_DURATION then some e.data else none

/-- What one handler invocation produced: the HTTP reply (error message or
data), the cache afterwards, and whether the scrape pipeline (the only
source of network calls) was entered. -/
structure ShopResponse (α : Type) where
  response : Except String α
  cache : List (String × CacheEntry α)
  networkCalled : Bool
  deriving DecidableEq, Repr

/-- The `/api/tokopedia-shop` handler of src/index.js lines 404-421:
missing url → 400; fresh cache entry → reply from cache, no scrape;
otherwise scrape, and on success store `{ data, timestamp: Date.now() }`
before replying. -/
def handleShopV3 {α : Type} (m : List (String × CacheEntry α)) (now : Nat)
    (url : String) (scrape : Except String α) : ShopResponse α :=
  if url = "" then ⟨Except.error "Shop URL is required", m, false⟩
  else
    match cacheFresh m url now with
    | some d => ⟨Except.ok d, m, false⟩
    | none =>
      match scrape with
      | Except.ok d => ⟨Except.ok d, cacheSet m url ⟨d, now⟩, true⟩
      | Except.error _ => ⟨Except.error "An error occurred while scraping the shop", m, true⟩

/-! ## Aggregator data model and the two fan-out variants -/

/-- A product stub scraped from the listing page (summary fields and the
optional `productLink` that spawns a detail task). -/
structure Product where
  summaryFields : List (String × String)
  productLink : Option String
  deriving DecidableEq, Repr

/-- One merged item of the aggregate: its summary fields always, and the
detail fields when the detail fetch succeeded in time. -/
structure DetailResult where
  summaryFields : List (String × String)
  detailFields : Option (List (String × String))
  deriving DecidableEq, Repr

/-- The spec's item status taxonomy: `Complete` when detail fields were
merged, `Partial` when only the summary fields survive. -/
inductive ItemStatus
  | Complete
  | Partial
  deriving DecidableEq, Repr

def DetailResult.status (r : DetailResult) : ItemStatus :=
  if r.detailFields.isSome then ItemStatus.Complete else ItemStatus.Partial

/-- One detail task of src/index.js lines 381-393: no `productLink` →
the summary product unchanged; otherwise `scrapeProductDetail` merged on
success, and the `catch` returns the summary product on failure. -/
def detailTask (p : Product) (outcome : Except String (List (String × String))) :
    DetailResult :=
  match p.productLink with
  | none => ⟨p.summaryFields, none⟩
  | some _ =>
    match outcome with
    | Except.ok d => ⟨p.summaryFields, some d⟩
    | Except.error _ => ⟨p.summaryFields, none⟩

/-- `Promise.all`'s internal slot array: completion events arrive in an
arbitrary order and each one writes task `i`'s result into slot `i`. -/
def fillSlots {α : Type} (res : Nat → α) :
    List Nat → (Nat → Option α) → Nat → Option α
  | [], acc => acc
  | i :: rest, acc => fillSlots res rest (fun j => if j = i then some (res i) else acc j)

/-- The array `Promise.all` resolves with, given the completion order of
the `n` tasks: slot `i` read after all completion events were processed. -/
def promiseAllOut {α : Type} (n : Nat) (res : Nat → α) (order : List Nat) :
    List (Option α) :=
  (List.range n).map (fillSlots res order (fun _ => none))

/-- The fan-out of src/index.js lines 380-395: one detail task per listing
product, gathered by `Promise.all`, with `order` the completion order of
the concurrent tasks. -/
def fanOutV3 (products : List Product)
    (outcomes : Nat → Except String (List (String × String))) (order : List Nat) :
    List (Option DetailResult) :=
  promiseAllOut products.length
    (fun i => detailTask (products.getD i ⟨[], none⟩) (outcomes i)) order

/-! ## part_000 fan-out: per-item 4000 ms race and Promise.allSettled
(src/unnamed/part_000 lines 118-141) -/

/-- One item of the part_000 fan-out: the listing product, the outcome the
detail pipeline would settle with, and when (ms) it settles. -/
structure ItemRun where
  product : Product
  outcome : Except String (List (String × String))
  settleMs : Nat
  deriving DecidableEq, Repr

/-- `timeout(4000)` — the per-item deadline. -/
def PER_ITEM_TIMEOUT : Nat := 4000

/-- One slot of the `results.map(...)` array of part_000: no link →
`Promise.resolve(product)` (fulfilled, summary only); a link → the race of
the caught detail chain against the rejecting 4000 ms timer.  A settle
before the deadline fulfils with the merged-or-degraded product; at or
past the deadline the race rejects, and `Promise.allSettled` followed by
the `status === 'fulfilled'` filter drops the item. -/
def raceItem (it : ItemRun) : Option DetailResult :=
  match it.product.productLink with
  | none => some ⟨it.product.summaryFields, none⟩
  | some _ =>
    if it.settleMs < PER_ITEM_TIMEOUT then some (detailTask it.product it.outcome)
    else none

/-- The gathered items of part_000: fulfilled race results in submission
order, rejected ones removed. -/
def fanOutP0 (items : List ItemRun) : List DetailResult :=
  items.filterMap raceItem

/-- The aggregate a shop scrape returns. -/
structure ShopResult where
  shopName : String
  shopLocation : String
  products : List DetailResult
  deriving DecidableEq, Repr

/-- `scrapeTokopediaShop` of part_000: the listing fetch's failure (its
retries exhausted) propagates and aborts the whole aggregation; on success
the header fields and the fan-out results are assembled.  Nothing after
the listing fetch can fail: the per-item chains are caught and gathered
with `allSettled`. -/
def scrapeShopP0 (listing : Except String ((String × String) × List ItemRun)) :
    Except String ShopResult :=
  match listing with
  | Except.error e => Except.error e
  | Except.ok (hdr, items) => Except.ok ⟨hdr.1, hdr.2, fanOutP0 items⟩

/-! ## part_000 endpoint: the 4900 ms overall race (part_000 lines 155-178) -/

/-- `new Promise((_, reject) => setTimeout(() => reject(new Error('Request
timeout')), 4900))` — the overall per-request deadline. -/
def REQUEST_DEADLINE : Nat := 4900

/-- One invocation of the part_000 shop handler: the HTTP reply, the error
the `catch` block received (if any), and the cache afterwards. -/
structure TimedShopResponse (α : Type) where
  response : Except String α
  caught : Option String
  cache : List (String × CacheEntry α)
  deriving DecidableEq, Repr

/-- The `/api/tokopedia-shop` handler of part_000 lines 155-178: missing
url → 400; otherwise `Promise.race([dataPromise, timeoutPromise])` where
the scrape pipeline settles at `pipelineMs`.  The pipeline wins only by
settling strictly before 4900 ms; then an ok result is cached and
returned, a pipeline error is caught and answered with a 500.  If the
deadline fires first the caught error is `'Request timeout'`, the reply is
the 500 and nothing is cached — the `cache.set` sits after the `await`
that threw. -/
def handleShopTimed {α : Type} (m : List (String × CacheEntry α)) (now : Nat)
    (url : String) (pipeline : Except String α) (pipelineMs : Nat) :
    TimedShopResponse α :=
  if url = "" then ⟨Except.error "Shop URL is required", none, m⟩
  else if pipelineMs < REQUEST_DEADLINE then
    match pipeline with
    | Except.ok d => ⟨Except.ok d, none, cacheSet m url ⟨d, now⟩⟩
    | Except.error e => ⟨Except.error "An error occurred while scraping the shop", some e, m⟩
  else ⟨Except.error "An error occurred while scraping the shop", some "Request timeout", m⟩

/-- Concrete per-item outcomes for the order-independence witness: item 0
has detail fields, item 1 would fail. -/
def c6Outcomes : Nat → Except String (List (String × String)) :=
  fun i => if i = 0 then Except.ok [("d", "1")] else Except.error "late"

/-- A linked item whose detail chain settles exactly at the 4000 ms
deadline — the in-flight fetch would even have succeeded. -/
def c7SlowItem : ItemRun :=
  ⟨⟨[("name", "A")], some "http://a"⟩, Except.ok [("d", "ok")], 4000⟩

/-- A linked sibling item that settles quickly and successfully. -/
def c7FastItem : ItemRun :=
  ⟨⟨[("name", "B")], some "http://b"⟩, Except.ok [("d", "2")], 100⟩

/-! ## Helper lemmas -/

lemma waiterInv_step (limit : Nat) (s : SchedState) (e : SchedEvent)
    (h : WaiterInv s) : WaiterInv (schedStep limit s e) := by
  cases e with
  | submit t =>
    by_cases hf : limit ≤ s.running
    · simp only [WaiterInv, schedStep, if_pos hf] at h ⊢
      rw [← h]
      simp [List.append_assoc]
    · simpa only [WaiterInv, schedStep, if_neg hf] using h
  | finish =>
    cases hq : s.queue with
    | nil =>
      simp only [WaiterInv, schedStep, hq] at h ⊢
      simpa [hq] using h
    | cons w q2 =>
      simp only [WaiterInv, schedStep, hq] at h ⊢
      rw [← h]
      simp
  | resume =>
    cases hp : s.pending with
    | nil => simpa only [WaiterInv, schedStep, hp] using h
    | cons w p2 =>
      simp only [WaiterInv, schedStep, hp] at h ⊢
      rw [← h]
      simp

lemma waiterInv_foldl (limit : Nat) :
    ∀ (es : List SchedEvent) (s : SchedState), WaiterInv s →
      WaiterInv (es.foldl (schedStep limit) s) := by
  intro es
  induction es with
  | nil => intro s h; simpa using h
  | cons e rest ih =>
    intro s h
    simpa using ih (schedStep limit s e) (waiterInv_step limit s e h)

lemma waiterInv_runSched (limit : Nat) (es : List SchedEvent) :
    WaiterInv (runSched limit es) :=
  waiterInv_foldl limit es initSched rfl

lemma retryAux_sleeps_const (oracle : Nat → Except String Response) (delayMs : Nat) :
    ∀ (fuel i : Nat), ∃ k,
      (retryAux oracle delayMs i fuel).sleeps = List.replicate k delayMs
  | 0, _ => ⟨0, rfl⟩
  | 1, i => by
    cases ho : oracle i with
    | ok r => exact ⟨0, by simp [retryAux, ho]⟩
    | error e => exact ⟨0, by simp [retryAux, ho]⟩
  | fuel + 2, i => by
    cases ho : oracle i with
    | ok r => exact ⟨0, by simp [retryAux, ho]⟩
    | error e =>
      obtain ⟨k, hk⟩ := retryAux_sleeps_const oracle delayMs (fuel + 1) (i + 1)
      exact ⟨k + 1, by simp [retryAux, ho, hk, List.replicate_succ]⟩

lemma retryAux_attempts_pos (oracle : Nat → Except String Response) (delayMs : Nat)
    (i fuel : Nat) : 1 ≤ (retryAux oracle delayMs i (fuel + 1)).attempts := by
  cases fuel with
  | zero =>
    cases ho : oracle i with
    | ok r => simp [retryAux, ho]
    | error e => simp [retryAux, ho]
  | succ f2 =>
    cases ho : oracle i with
    | ok r => simp [retryAux, ho]
    | error e => simp [retryAux, ho]

lemma retryAux_outcome_not_invalid (oracle : Nat → Except String Response)
    (delayMs : Nat) :
    ∀ (fuel i : Nat),
      (retryAux oracle delayMs i fuel).outcome ≠ Except.error FetchErr.invalidInput
  | 0, _ => fun h => Except.noConfusion h
  | 1, i => by
    cases ho : oracle i with
    | ok r =>
      simp only [retryAux, ho]
      intro h
      exact Except.noConfusion h
    | error e =>
      simp only [retryAux, ho]
      intro h
      injection h with h2
      exact FetchErr.noConfusion h2
  | fuel + 2, i => by
    cases ho : oracle i with
    | ok r =>
      simp only [retryAux, ho]
      intro h
      exact Except.noConfusion h
    | error e =>
      simp only [retryAux, ho]
      exact retryAux_outcome_not_invalid oracle delayMs (fuel + 1) (i + 1)

lemma fillSlots_eq {α : Type} (res : Nat → α) :
    ∀ (order : List Nat) (acc : Nat → Option α) (j : Nat),
      fillSlots res order acc j = if j ∈ order then some (res j) else acc j := by
  intro order
  induction order with
  | nil => intro acc j; simp [fillSlots]
  | cons i rest ih =>
    intro acc j
    simp only [fillSlots]
    rw [ih]
    by_cases hj : j ∈ rest
    · simp [hj]
    · by_cases hji : j = i
      · subst hji; simp [hj]
      · simp [hj, hji]

/-! ## Claim theorems -/

/-- C1: the spec claims the gate never lets more than `limit` task bodies
run concurrently, for every sequence of submissions.  The code violates
this: on `c1BugTrace` (limit 5, a realizable microtask interleaving in
which a fresh `run` call lands between a slot release and the woken
waiter's resumption) the running count reaches 6, because the woken
waiter increments `running` without re-checking the limit. -/
theorem scheduler_bound_violated :
    (runSched 5 c1BugTrace).running = 6 ∧ 5 < (runSched 5 c1BugTrace).running := by
  decide

/-- C2: admission control around the queue.  When every slot is taken a
new caller is appended to the wait queue with the running count unchanged
(it suspends); a completing task wakes exactly the head waiter (so the
slot is handed on, never left idle while a waiter exists, and exactly one
waiter is admitted per completion); and over any event sequence the order
in which waiters resume is a prefix of their arrival order — FIFO, no
priority. -/
theorem scheduler_fifo_admission (limit : Nat) (s : SchedState) (t w : Nat)
    (q2 : List Nat) :
    (limit ≤ s.running → schedStep limit s (SchedEvent.submit t) =
      { s with queue := s.queue ++ [t], arrivals := s.arrivals ++ [t] }) ∧
    (s.queue = w :: q2 → schedStep limit s SchedEvent.finish =
      { s with running := s.running - 1, queue := q2, pending := s.pending ++ [w] }) ∧
    (∀ es : List SchedEvent, ∃ rest,
      (runSched limit es).resumed ++ rest = (runSched limit es).arrivals) := by
  refine ⟨?_, ?_, ?_⟩
  · intro hf
    simp only [schedStep, if_pos hf]
  · intro hq
    simp only [schedStep, hq]
  · intro es
    refine ⟨(runSched limit es).pending ++ (runSched limit es).queue, ?_⟩
    exact waiterInv_runSched limit es

/-- C2 witness: the three conjuncts at a concrete saturated state and a
concrete event sequence. -/
theorem scheduler_fifo_admission_witness :
    (schedStep 1 ⟨1, [9], [], [], [9]⟩ (SchedEvent.submit 3) =
      { running := 1, queue := [9, 3], pending := [], resumed := [], arrivals := [9, 3] }) ∧
    (schedStep 1 ⟨1, [9], [], [], [9]⟩ SchedEvent.finish =
      { running := 0, queue := [], pending := [9], resumed := [], arrivals := [9] }) ∧
    (∀ es : List SchedEvent, ∃ rest,
      (runSched 1 es).resumed ++ rest = (runSched 1 es).arrivals) := by
  have h := scheduler_fifo_admission 1 ⟨1, [9], [], [], [9]⟩ 3 9 []
  exact ⟨h.1 (by decide), h.2.1 rfl, h.2.2⟩

/-- C3 counterexample: the claim predicts the sleep after failed attempt
`i` to be `baseDelay * 2 ^ i`, so with base 1000 the second sleep should
be 2000.  With every attempt failing, three retries at base 1000 sleep
`[1000, 1000]`: the second inter-attempt delay is 1000, not 2000. -/
theorem backoff_not_exponential_cex :
    (retryRequest "http://shop.example/x" 3 1000 failOracle).sleeps = [1000, 1000] ∧
    ¬ (retryRequest "http://shop.example/x" 3 1000 failOracle).sleeps =
        [1000 * 2 ^ 0, 1000 * 2 ^ 1] := by
  decide

/-- C3 amended: the delay slept between failed attempt `i` and attempt
`i + 1` is the constant `baseDelay`, independent of `i` — every entry of
the sleep list equals `delayMs` (the list is a replicate). -/
theorem backoff_constant_delay (url : String) (retries : Int) (delayMs : Nat)
    (oracle : Nat → Except String Response) :
    ∃ k, (retryRequest url retries delayMs oracle).sleeps = List.replicate k delayMs := by
  unfold retryRequest
  by_cases h : url = ""
  · exact ⟨0, by simp [h]⟩
  · rw [if_neg h]
    exact retryAux_sleeps_const oracle delayMs retries.toNat 0

/-- C4 counterexample: `"not-a-url"` is non-empty and not a well-formed
absolute URL, yet `retryRequest` does not fail immediately with the
invalid-input error: it issues all 3 attempts (each handed to the HTTP
client and retried) and surfaces the last attempt's error. -/
theorem malformed_url_not_rejected_cex :
    ("not-a-url" ≠ "") ∧
    specAbsoluteUrl "not-a-url" = false ∧
    (retryRequest "not-a-url" 3 1000 failOracle).attempts = 3 ∧
    (retryRequest "not-a-url" 3 1000 failOracle).outcome =
      Except.error (FetchErr.netFail "network down") ∧
    ¬ ((retryRequest "not-a-url" 3 1000 failOracle).attempts = 0 ∧
       (retryRequest "not-a-url" 3 1000 failOracle).outcome =
         Except.error FetchErr.invalidInput) := by
  decide

/-- C4 amended: only an empty (falsy) url is rejected immediately — no
attempt, no sleep, the invalid-input error.  Every non-empty url, well
formed or not, enters the attempt loop: with at least one retry it
performs at least one attempt and its outcome is never the invalid-input
error. -/
theorem empty_url_short_circuit (url : String) (retries : Int) (delayMs : Nat)
    (oracle : Nat → Except String Response) :
    (url = "" → retryRequest url retries delayMs oracle =
      ⟨0, [], Except.error FetchErr.invalidInput⟩) ∧
    (url ≠ "" → 1 ≤ retries →
      1 ≤ (retryRequest url retries delayMs oracle).attempts ∧
      (retryRequest url retries delayMs oracle).outcome ≠
        Except.error FetchErr.invalidInput) := by
  constructor
  · intro h
    simp [retryRequest, h]
  · intro h hr
    unfold retryRequest
    rw [if_neg h]
    have hfuel : retries.toNat = (retries.toNat - 1) + 1 := by omega
    constructor
    · rw [hfuel]
      exact retryAux_attempts_pos oracle delayMs 0 (retries.toNat - 1)
    · exact retryAux_outcome_not_invalid oracle delayMs retries.toNat 0

/-- C4 amended witness: both branches at concrete inputs — the empty url
is rejected with no attempt, and a non-empty url with one retry makes an
attempt and does not produce the invalid-input error. -/
theorem empty_url_short_circuit_witness :
    (retryRequest "" 3 1000 failOracle = ⟨0, [], Except.error FetchErr.invalidInput⟩) ∧
    (1 ≤ (retryRequest "http://shop.example/x" 1 300 failOracle).attempts ∧
      (retryRequest "http://shop.example/x" 1 300 failOracle).outcome ≠
        Except.error FetchErr.invalidInput) :=
  ⟨(empty_url_short_circuit "" 3 1000 failOracle).1 rfl,
   (empty_url_short_circuit "http://shop.example/x" 1 300 failOracle).2
     (by decide) (by decide)⟩

/-- C10: with `retries = 0` (or any non-positive count) and a non-empty
url, the loop body never runs: `retryRequest` returns the JS `undefined`
(`ok none`) with zero attempts, zero sleeps and no error raised. -/
theorem zero_retries_returns_undefined (url : String) (delayMs : Nat)
    (oracle : Nat → Except String Response) (retries : Int)
    (hu : url ≠ "") (hr : retries ≤ 0) :
    retryRequest url retries delayMs oracle = ⟨0, [], Except.ok none⟩ := by
  unfold retryRequest
  rw [if_neg hu]
  have h0 : retries.toNat = 0 := by omega
  rw [h0]
  rfl

/-- C10 witness: zero retries on a live url return `undefined` untouched. -/
theorem zero_retries_returns_undefined_witness :
    retryRequest "http://shop.example/x" 0 300 failOracle = ⟨0, [], Except.ok none⟩ :=
  zero_retries_returns_undefined "http://shop.example/x" 300 failOracle 0
    (by decide) (by decide)

lemma cacheGet_set_same {α : Type} (m : List (String × CacheEntry α)) (k : String)
    (e : CacheEntry α) : cacheGet (cacheSet m k e) k = some e := by
  simp [cacheSet, cacheGet]

lemma cacheFresh_set_fresh {α : Type} (m : List (String × CacheEntry α)) (k : String)
    (v : α) (t now : Nat) (h : now - t < CACHE_DURATION) :
    cacheFresh (cacheSet m k ⟨v, t⟩) k now = some v := by
  unfold cacheFresh
  rw [cacheGet_set_same]
  simp [h]

lemma cacheFresh_set_stale {α : Type} (m : List (String × CacheEntry α)) (k : String)
    (v : α) (t now : Nat) (h : ¬ now - t < CACHE_DURATION) :
    cacheFresh (cacheSet m k ⟨v, t⟩) k now = none := by
  unfold cacheFresh
  rw [cacheGet_set_same]
  simp [h]

/-- C5: cache algebra and the cache-hit shortcut.  A `set(k, v)` read back
at the same instant returns `v`; once the 5-minute TTL has elapsed the
read is a miss; a second `set` on the same key always overwrites; and a
second identical request within the TTL window is answered from the cache
with the identical data and without entering the scrape pipeline (no new
network calls), whatever the network would do. -/
theorem cache_ttl_roundtrip {α : Type} (m : List (String × CacheEntry α))
    (k : String) (v : α) (t now now2 : Nat) (url : String) (d : α)
    (sc : Except String α) :
    (cacheFresh (cacheSet m k ⟨v, t⟩) k t = some v) ∧
    (t + CACHE_DURATION ≤ now → cacheFresh (cacheSet m k ⟨v, t⟩) k now = none) ∧
    (∀ (v2 : α) (t2 : Nat),
      cacheFresh (cacheSet (cacheSet m k ⟨v, t⟩) k ⟨v2, t2⟩) k t2 = some v2) ∧
    (url ≠ "" → cacheFresh m url now = none → now2 - now < CACHE_DURATION →
      handleShopV3 ((handleShopV3 m now url (Except.ok d)).cache) now2 url sc =
        ⟨Except.ok d, (handleShopV3 m now url (Except.ok d)).cache, false⟩) := by
  refine ⟨?_, ?_, ?_, ?_⟩
  · exact cacheFresh_set_fresh m k v t t
      (by simp only [Nat.sub_self, CACHE_DURATION]; omega)
  · intro h
    exact cacheFresh_set_stale m k v t now (by simp only [CACHE_DURATION] at h ⊢; omega)
  · intro v2 t2
    exact cacheFresh_set_fresh (cacheSet m k ⟨v, t⟩) k v2 t2 t2
      (by simp only [Nat.sub_self, CACHE_DURATION]; omega)
  · intro hu hm hw
    have h1 : handleShopV3 m now url (Except.ok d) =
        ⟨Except.ok d, cacheSet m url ⟨d, now⟩, true⟩ := by
      unfold handleShopV3
      rw [if_neg hu, hm]
    have h2 : cacheFresh (cacheSet m url ⟨d, now⟩) url now2 = some d :=
      cacheFresh_set_fresh m url d now now2 hw
    rw [h1]
    unfold handleShopV3
    rw [if_neg hu]
    simp only [h2]

/-- C5 witness: the four conjuncts at concrete inputs — an immediate
read-back, a read 5 minutes later, an overwrite, and a second identical
request 100 ms after a first one that scraped and cached. -/
theorem cache_ttl_roundtrip_witness :
    (cacheFresh (cacheSet ([] : List (String × CacheEntry Nat)) "p" ⟨1, 0⟩) "p" 0 =
      some 1) ∧
    (cacheFresh (cacheSet ([] : List (String × CacheEntry Nat)) "p" ⟨1, 0⟩) "p" 300000 =
      none) ∧
    (cacheFresh (cacheSet (cacheSet ([] : List (String × CacheEntry Nat)) "p" ⟨1, 0⟩)
        "p" ⟨2, 5⟩) "p" 5 = some 2) ∧
    (handleShopV3 ((handleShopV3 ([] : List (String × CacheEntry Nat)) 300000
          "http://shop.example/s" (Except.ok 7)).cache) 300100
        "http://shop.example/s" (Except.error "network down") =
      ⟨Except.ok 7, (handleShopV3 ([] : List (String × CacheEntry Nat)) 300000
          "http://shop.example/s" (Except.ok 7)).cache, false⟩) := by
  have h := cache_ttl_roundtrip ([] : List (String × CacheEntry Nat)) "p" 1 0 300000
    300100 "http://shop.example/s" 7 (Except.error "network down")
  exact ⟨h.1, h.2.1 (by decide), h.2.2.1 2 5, h.2.2.2 (by decide) rfl (by decide)⟩

/-- C6: the fan-out of src/index.js 380-395 resolves, for every completion
order of the concurrent detail tasks that completes each of the `n` tasks,
to the sequence of per-item results indexed by original listing position —
slot `i` holds item `i`'s merged result, so the output order is the
listing order no matter when each fetch completed. -/
theorem fanout_preserves_listing_order (products : List Product)
    (outcomes : Nat → Except String (List (String × String))) (order : List Nat)
    (hall : ∀ i, i < products.length → i ∈ order) :
    fanOutV3 products outcomes order =
      (List.range products.length).map
        (fun i => some (detailTask (products.getD i ⟨[], none⟩) (outcomes i))) := by
  unfold fanOutV3 promiseAllOut
  apply List.map_congr_left
  intro i hi
  rw [fillSlots_eq]
  rw [if_pos (hall i (List.mem_range.mp hi))]

/-- C6 witness: two listed products whose detail tasks complete in
reversed order still come out in listing order. -/
theorem fanout_preserves_listing_order_witness :
    fanOutV3 [⟨[("t", "A")], some "http://a"⟩, ⟨[("t", "B")], none⟩] c6Outcomes [1, 0] =
      (List.range
          ([⟨[("t", "A")], some "http://a"⟩,
            (⟨[("t", "B")], none⟩ : Product)] : List Product).length).map
        (fun i => some (detailTask
          (([⟨[("t", "A")], some "http://a"⟩,
             (⟨[("t", "B")], none⟩ : Product)] : List Product).getD i ⟨[], none⟩)
          (c6Outcomes i))) :=
  fanout_preserves_listing_order
    [⟨[("t", "A")], some "http://a"⟩, ⟨[("t", "B")], none⟩] c6Outcomes [1, 0]
    (by decide)

/-- C7 counterexample: two linked items, the first settling exactly at the
4000 ms deadline (its detail would even have succeeded), the second
settling quickly.  The claim says the result still contains the first item
summary-only; in fact the rejected race is dropped by the
`allSettled`-then-filter step, so the result has one item and no entry
carries the first item's summary fields. -/
theorem timeout_item_dropped_cex :
    fanOutP0 [c7SlowItem, c7FastItem] = [⟨[("name", "B")], some [("d", "2")]⟩] ∧
    ¬ (∃ r ∈ fanOutP0 [c7SlowItem, c7FastItem],
        r.summaryFields = [("name", "A")]) := by
  decide

/-- C7 amended: an item whose detail chain fails strictly before the
4000 ms deadline is kept, in place, with only its summary fields (status
Partial), and its siblings are processed independently; an item that
reaches the deadline is dropped from the items sequence entirely; in
either case the aggregation itself still succeeds for every item
population — item trouble never fails the overall request. -/
theorem item_failure_degrades_timeout_drops (pre post : List ItemRun)
    (sf : List (String × String)) (link msg : String) (s : Nat)
    (hs : s < PER_ITEM_TIMEOUT) :
    (fanOutP0 (pre ++ ⟨⟨sf, some link⟩, Except.error msg, s⟩ :: post) =
      fanOutP0 pre ++ ⟨sf, none⟩ :: fanOutP0 post) ∧
    DetailResult.status ⟨sf, none⟩ = ItemStatus.Partial ∧
    (∀ slow : ItemRun, PER_ITEM_TIMEOUT ≤ slow.settleMs →
      slow.product.productLink = some link →
      fanOutP0 (pre ++ slow :: post) = fanOutP0 pre ++ fanOutP0 post) ∧
    (∀ (hdr : String × String) (items : List ItemRun), ∃ r,
      scrapeShopP0 (Except.ok (hdr, items)) = Except.ok r ∧
      r.products = fanOutP0 items) := by
  refine ⟨?_, ?_, ?_, ?_⟩
  · simp only [fanOutP0, List.filterMap_append, List.filterMap_cons]
    rw [show raceItem ⟨⟨sf, some link⟩, Except.error msg, s⟩ = some ⟨sf, none⟩ from by
      simp [raceItem, detailTask, hs]]
  · simp [DetailResult.status]
  · intro slow h1 h2
    simp only [fanOutP0, List.filterMap_append, List.filterMap_cons]
    rw [show raceItem slow = none from by
      simp [raceItem, h2]
      omega]
  · intro hdr items
    exact ⟨⟨hdr.1, hdr.2, fanOutP0 items⟩, rfl, rfl⟩

/-- C7 amended witness: one item failing at 100 ms is kept summary-only
with status Partial, a deadline-reaching item is dropped, and the
aggregation succeeds. -/
theorem item_failure_degrades_timeout_drops_witness :
    (fanOutP0 [⟨⟨[("n", "X")], some "http://x"⟩, Except.error "boom", 100⟩] =
      fanOutP0 [] ++ ⟨[("n", "X")], none⟩ :: fanOutP0 []) ∧
    DetailResult.status ⟨[("n", "X")], none⟩ = ItemStatus.Partial ∧
    (∀ slow : ItemRun, PER_ITEM_TIMEOUT ≤ slow.settleMs →
      slow.product.productLink = some "http://x" →
      fanOutP0 ([] ++ slow :: []) = fanOutP0 [] ++ fanOutP0 []) ∧
    (∀ (hdr : String × String) (items : List ItemRun), ∃ r,
      scrapeShopP0 (Except.ok (hdr, items)) = Except.ok r ∧
      r.products = fanOutP0 items) := by
  have h := item_failure_degrades_timeout_drops [] [] [("n", "X")] "http://x" "boom" 100
    (by decide)
  exact ⟨h.1, h.2.1, h.2.2.1, h.2.2.2⟩

/-- C8: a listing fetch whose retries are exhausted fails the whole
aggregation, carrying the cause, with total request failure and zero items
(the error reply holds no aggregate and the cache is untouched); and for
every item population the aggregation with a successful listing returns
`ok` — item-level trouble never fails the aggregation, so the listing
fetch is its only item-independent failure source. -/
theorem listing_failure_aggregation (e : String)
    (m : List (String × CacheEntry ShopResult)) (now : Nat) (url : String)
    (hu : url ≠ "") (hm : cacheFresh m url now = none) :
    (scrapeShopP0 (Except.error e) = Except.error e) ∧
    (∀ (hdr : String × String) (items : List ItemRun), ∃ r,
      scrapeShopP0 (Except.ok (hdr, items)) = Except.ok r) ∧
    ((handleShopV3 m now url (Except.error e)).response =
      Except.error "An error occurred while scraping the shop") ∧
    ((handleShopV3 m now url (Except.error e)).cache = m) := by
  refine ⟨rfl, ?_, ?_, ?_⟩
  · intro hdr items
    exact ⟨⟨hdr.1, hdr.2, fanOutP0 items⟩, rfl⟩
  · unfold handleShopV3
    rw [if_neg hu, hm]
  · unfold handleShopV3
    rw [if_neg hu, hm]

/-- C8 witness: a failed listing at a concrete url with an empty cache. -/
theorem listing_failure_aggregation_witness :
    (scrapeShopP0 (Except.error "network down") = Except.error "network down") ∧
    (∀ (hdr : String × String) (items : List ItemRun), ∃ r,
      scrapeShopP0 (Except.ok (hdr, items)) = Except.ok r) ∧
    ((handleShopV3 ([] : List (String × CacheEntry ShopResult)) 0
        "http://shop.example/s" (Except.error "network down")).response =
      Except.error "An error occurred while scraping the shop") ∧
    ((handleShopV3 ([] : List (String × CacheEntry ShopResult)) 0
        "http://shop.example/s" (Except.error "network down")).cache = []) :=
  listing_failure_aggregation "network down" [] 0 "http://shop.example/s"
    (by decide) rfl

/-- C9: when the scrape pipeline has not settled strictly before the
4900 ms overall deadline, the handler's race is lost to the timeout: the
caught error is `'Request timeout'`, the reply is the 500 error — no
aggregate is returned even if the pipeline carried a finished result —
and nothing is written to the cache. -/
theorem overall_deadline_request_timeout {α : Type}
    (m : List (String × CacheEntry α)) (now : Nat) (url : String)
    (pipeline : Except String α) (ms : Nat)
    (hu : url ≠ "") (hd : REQUEST_DEADLINE ≤ ms) :
    handleShopTimed m now url pipeline ms =
      ⟨Except.error "An error occurred while scraping the shop",
       some "Request timeout", m⟩ := by
  unfold handleShopTimed
  rw [if_neg hu, if_neg (by omega)]

/-- C9 witness: a pipeline that finished with data at exactly 4900 ms
still yields the timeout reply, no data and no cache write. -/
theorem overall_deadline_request_timeout_witness :
    handleShopTimed ([] : List (String × CacheEntry Nat)) 0 "http://shop.example/s"
      (Except.ok 7) 4900 =
      ⟨Except.error "An error occurred while scraping the shop",
       some "Request timeout", []⟩ :=
  overall_deadline_request_timeout [] 0 "http://shop.example/s" (Except.ok 7) 4900
    (by decide) (by decide)
